import Mathlib

/-
Verification of the signature-matching core of abyss-png/Signatuareforsih.

The repository is a Python GUI application (src/signature.py, src/main.py).
Its image pipeline calls into external libraries (cv2, skimage, pdf2image,
requests, PIL).  We embed the repository code shallowly: each external
library call becomes a field of an environment record, since from the point
of view of this repository those calls are opaque, possibly failing
operations (any exception raised by one of them is caught by the enclosing
try/except and mapped to a sentinel result).  A call that can raise, or can
return None, is modelled as a function into Option; the repository code that
sequences and dispatches those calls is translated statement by statement.
Numbers produced by the similarity computation are idealised as rationals.
-/

/- Python round(x, 2) rounds half to even at two decimal places.  rhe is
round-half-to-even to the nearest integer, over the rationals. -/
def rhe (x : ℚ) : ℤ :=
  if x - ((⌊x⌋ : ℤ) : ℚ) < 1 / 2 then ⌊x⌋
  else if 1 / 2 < x - ((⌊x⌋ : ℤ) : ℚ) then ⌊x⌋ + 1
  else if Even ⌊x⌋ then ⌊x⌋ else ⌊x⌋ + 1

/- round(x, 2): round to two decimal places, ties to even. -/
def round2 (x : ℚ) : ℚ := ((rhe (x * 100) : ℤ) : ℚ) / 100

theorem rhe_le (x : ℚ) : (rhe x : ℚ) ≤ x + 1 / 2 := by
  have h1 : ((⌊x⌋ : ℤ) : ℚ) ≤ x := Int.floor_le x
  have h2 : x < ((⌊x⌋ : ℤ) : ℚ) + 1 := Int.lt_floor_add_one x
  unfold rhe
  split_ifs with hf hg he
  · linarith
  · push_cast; linarith
  · have hfe : x - ((⌊x⌋ : ℤ) : ℚ) = 1 / 2 := le_antisymm (not_lt.mp hg) (not_lt.mp hf)
    linarith
  · push_cast
    have hfe : x - ((⌊x⌋ : ℤ) : ℚ) = 1 / 2 := le_antisymm (not_lt.mp hg) (not_lt.mp hf)
    linarith

theorem rhe_ge (x : ℚ) : x - 1 / 2 ≤ (rhe x : ℚ) := by
  have h1 : ((⌊x⌋ : ℤ) : ℚ) ≤ x := Int.floor_le x
  have h2 : x < ((⌊x⌋ : ℤ) : ℚ) + 1 := Int.lt_floor_add_one x
  unfold rhe
  split_ifs with hf hg he
  · linarith
  · push_cast; linarith
  · have hfe : x - ((⌊x⌋ : ℤ) : ℚ) = 1 / 2 := le_antisymm (not_lt.mp hg) (not_lt.mp hf)
    linarith
  · push_cast
    have hfe : x - ((⌊x⌋ : ℤ) : ℚ) = 1 / 2 := le_antisymm (not_lt.mp hg) (not_lt.mp hf)
    linarith

/- If the raw similarity index s lies in [-1, 1] then the reported
percentage round2 (s * 100) lies in [-100, 100]. -/
theorem round2_mul100_bounds (s : ℚ) (hlo : -1 ≤ s) (hhi : s ≤ 1) :
    -100 ≤ round2 (s * 100) ∧ round2 (s * 100) ≤ 100 := by
  have hls : (rhe (s * 100 * 100) : ℚ) ≤ s * 100 * 100 + 1 / 2 := rhe_le _
  have hgs : s * 100 * 100 - 1 / 2 ≤ (rhe (s * 100 * 100) : ℚ) := rhe_ge _
  have hub : (rhe (s * 100 * 100) : ℚ) ≤ 10000 := by
    have hq : (rhe (s * 100 * 100) : ℚ) < 10001 := by nlinarith
    have hz : rhe (s * 100 * 100) < 10001 := by exact_mod_cast hq
    have hz2 : rhe (s * 100 * 100) ≤ 10000 := by omega
    exact_mod_cast hz2
  have hlb : (-10000 : ℚ) ≤ (rhe (s * 100 * 100) : ℚ) := by
    have hq : (-10001 : ℚ) < (rhe (s * 100 * 100) : ℚ) := by nlinarith
    have hz : -10001 < rhe (s * 100 * 100) := by exact_mod_cast hq
    have hz2 : -10000 ≤ rhe (s * 100 * 100) := by omega
    exact_mod_cast hz2
  unfold round2
  constructor <;> [linarith; linarith]

/-
Environment of external library operations used by src/signature.py.
α is the type of decoded raster images, β the type of HTTP response byte
payloads, γ the type of rendered PDF pages.
  fetchBytes    : requests.get(url, stream=True) followed by
                  raise_for_status and response.content; none models a
                  transport error or a non-success status (an exception).
  imdecodeColor : cv2.imdecode(bytes, cv2.IMREAD_COLOR); none models a
                  decode failure (imdecode returning None).
  pdfDoc        : the sequence of renderable pages of the PDF document at a
                  path; none models an unreadable or unrenderable document
                  (convert_from_path raising).
  jpegSaveLoad  : images[0].save(temp_image_path, "JPEG") followed by
                  cv2.imread(temp_image_path); none models a failure of
                  that round trip.
  imread        : cv2.imread(path); none models a missing or unreadable
                  file (imread returning None).
  cvtGray       : cv2.cvtColor(img, cv2.COLOR_BGR2GRAY); none models an
                  exception.
  resize        : cv2.resize(img, dsize); none models an exception.
  preview       : cv2.hconcat, cv2.imshow("Signature Comparison", _),
                  cv2.waitKey(1000), cv2.destroyAllWindows; none models an
                  exception (for example a headless display).
  ssim          : skimage.metrics.structural_similarity on two resized
                  grayscale images; none models an exception.
-/
structure PyEnv (α β γ : Type) where
  fetchBytes : String → Option β
  imdecodeColor : β → Option α
  pdfDoc : String → Option (List γ)
  jpegSaveLoad : γ → Option α
  imread : String → Option α
  cvtGray : α → Option α
  resize : α → Nat × Nat → Option α
  preview : α → α → Option Unit
  ssim : α → α → Option ℚ

/- Python str.startswith(pre): the characters of pre are a prefix of the
characters of s. -/
def pyStartsWith (s pre : String) : Bool := pre.data.isPrefixOf s.data

/- Python str.endswith(suf): the characters of suf are a suffix of the
characters of s. -/
def pyEndsWith (s suf : String) : Bool := suf.data.isSuffixOf s.data

/- Python str.lower(), restricted to the ASCII case mapping. -/
def pyLower (s : String) : String := ⟨s.data.map Char.toLower⟩

/- Python str.strip() with no argument: remove leading and trailing
whitespace characters. -/
def pyStrip (s : String) : String :=
  ⟨((s.data.dropWhile Char.isWhitespace).reverse.dropWhile Char.isWhitespace).reverse⟩

/- src/signature.py lines 32-42, download_image: fetch the URL, then decode
the response bytes as a color image; any network exception yields None, and
a decode failure yields None. -/
def download_image {α β γ : Type} (env : PyEnv α β γ) (url : String) : Option α :=
  (env.fetchBytes url).bind env.imdecodeColor

/- Modelled from the library semantics of pdf2image.convert_from_path with
keyword arguments first_page and last_page: it renders exactly the pages
numbered first..last (1-based) of the document, or raises (none) when the
document cannot be read. -/
def convert_from_path {α β γ : Type} (env : PyEnv α β γ) (path : String)
    (first last : Nat) : Option (List γ) :=
  (env.pdfDoc path).map (fun ps => (ps.drop (first - 1)).take (last + 1 - first))

/- src/signature.py lines 44-57, extract_first_page_from_pdf: convert page 1
only (first_page=1, last_page=1); if the returned list is nonempty, save its
first element as a JPEG and re-read it with cv2.imread; if the list is empty
the function falls through and returns None; an exception yields None. -/
def extract_first_page_from_pdf {α β γ : Type} (env : PyEnv α β γ)
    (pdf_path : String) : Option α :=
  match convert_from_path env pdf_path 1 1 with
  | none => none
  | some [] => none
  | some (p :: _) => env.jpegSaveLoad p

/- src/signature.py lines 59-75, load_image: dispatch on the source string,
in order: an http prefix goes to download_image; a case-insensitive .pdf
suffix goes to extract_first_page_from_pdf; anything else is read as a
local file with cv2.imread. -/
def load_image {α β γ : Type} (env : PyEnv α β γ) (path : String) : Option α :=
  if pyStartsWith path "http" then download_image env path
  else if pyEndsWith (pyLower path) ".pdf" then extract_first_page_from_pdf env path
  else env.imread path

/- src/signature.py lines 87-103, the body of match after both images have
loaded: grayscale both, resize both to (300, 300), show the side-by-side
preview, compute ssim, return round(similarity * 100, 2).  Any exception in
any of these steps is caught by the try/except and yields -1. -/
def matchCore {α β γ : Type} (env : PyEnv α β γ) (img1 img2 : α) : ℚ :=
  match env.cvtGray img1, env.cvtGray img2 with
  | some g1, some g2 =>
    match env.resize g1 (300, 300), env.resize g2 (300, 300) with
    | some r1, some r2 =>
      match env.preview r1 r2 with
      | some _ =>
        match env.ssim r1 r2 with
        | some s => round2 (s * 100)
        | none => -1
      | none => -1
    | _, _ => -1
  | _, _ => -1

/- src/signature.py lines 77-107, match (named matchFn here because match is
a reserved word in Lean): load both sources; if either load yields None,
return -1; otherwise run the comparison pipeline, with every exception
mapped to -1. -/
def matchFn {α β γ : Type} (env : PyEnv α β γ) (path1 path2 : String) : ℚ :=
  match load_image env path1, load_image env path2 with
  | some img1, some img2 => matchCore env img1 img2
  | _, _ => -1

/- rhe is the identity on integer points. -/
theorem rhe_intCast (n : ℤ) : rhe ((n : ℤ) : ℚ) = n := by
  unfold rhe
  rw [Int.floor_intCast]
  norm_num

/- A family of fully-succeeding concrete environments, with a chosen raw
similarity value; images, payloads and pages are opaque tokens. -/
def mkEnv (v : ℚ) : PyEnv Nat Nat Nat :=
  ⟨fun _ => some 0, fun _ => some 1, fun _ => some [2, 3], fun _ => some 4,
   fun _ => some 5, fun i => some i, fun i _ => some i, fun _ _ => some (),
   fun _ _ => some v⟩

def envHalf : PyEnv Nat Nat Nat := mkEnv (1 / 2)

def envNegCent : PyEnv Nat Nat Nat := mkEnv (-1 / 100)

def envOne : PyEnv Nat Nat Nat := mkEnv 1

/- A concrete environment in which every library operation fails. -/
def envNoRead : PyEnv Nat Nat Nat :=
  ⟨fun _ => none, fun _ => none, fun _ => none, fun _ => none, fun _ => none,
   fun _ => none, fun _ _ => none, fun _ _ => none, fun _ _ => none⟩

/-- Claim C1: for every pair of sources that both load successfully (and for
which the subsequent grayscale, resize, preview and ssim library calls
succeed, as they do in a working deployment), match returns
round(100 * ssim(resize300(gray(img1)), resize300(gray(img2))), 2), and when
the raw index lies in the documented range [-1, 1] the result lies in
[-100, 100]. -/
theorem match_success_rounds_ssim {α β γ : Type} (env : PyEnv α β γ)
    (p1 p2 : String) (i1 i2 g1 g2 r1 r2 : α) (s : ℚ)
    (hl1 : load_image env p1 = some i1) (hl2 : load_image env p2 = some i2)
    (hg1 : env.cvtGray i1 = some g1) (hg2 : env.cvtGray i2 = some g2)
    (hr1 : env.resize g1 (300, 300) = some r1)
    (hr2 : env.resize g2 (300, 300) = some r2)
    (hpv : env.preview r1 r2 = some ()) (hs : env.ssim r1 r2 = some s)
    (hlo : -1 ≤ s) (hhi : s ≤ 1) :
    matchFn env p1 p2 = round2 (s * 100) ∧
    -100 ≤ matchFn env p1 p2 ∧ matchFn env p1 p2 ≤ 100 := by
  have he : matchFn env p1 p2 = round2 (s * 100) := by
    simp only [matchFn, matchCore, hl1, hl2, hg1, hg2, hr1, hr2, hpv, hs]
  have hb := round2_mul100_bounds s hlo hhi
  exact ⟨he, by rw [he]; exact hb.1, by rw [he]; exact hb.2⟩

theorem match_success_rounds_ssim_witness :
    matchFn envHalf "a.png" "b.png" = round2 (1 / 2 * 100) ∧
    -100 ≤ matchFn envHalf "a.png" "b.png" ∧
    matchFn envHalf "a.png" "b.png" ≤ 100 :=
  match_success_rounds_ssim envHalf "a.png" "b.png" 5 5 5 5 5 5 (1 / 2)
    (by decide) (by decide) rfl rfl rfl rfl rfl rfl (by norm_num) (by norm_num)

/-- Claim C10: match is total and maps every internal failure to -1: for
every environment of (possibly failing) library operations and every input
pair, match returns -1, or else every stage of the pipeline (both loads,
both grayscale conversions, both resizes, the preview, and the ssim call)
succeeded and match returns the rounded percentage of the raw index. -/
theorem match_total_sentinel_or_score {α β γ : Type} (env : PyEnv α β γ)
    (p1 p2 : String) :
    matchFn env p1 p2 = -1 ∨
    ∃ i1 i2 g1 g2 r1 r2 s,
      load_image env p1 = some i1 ∧ load_image env p2 = some i2 ∧
      env.cvtGray i1 = some g1 ∧ env.cvtGray i2 = some g2 ∧
      env.resize g1 (300, 300) = some r1 ∧ env.resize g2 (300, 300) = some r2 ∧
      env.preview r1 r2 = some () ∧ env.ssim r1 r2 = some s ∧
      matchFn env p1 p2 = round2 (s * 100) := by
  rcases hl1 : load_image env p1 with _ | i1
  · left; simp [matchFn, hl1]
  rcases hl2 : load_image env p2 with _ | i2
  · left; simp [matchFn, hl1, hl2]
  rcases hg1 : env.cvtGray i1 with _ | g1
  · left; simp [matchFn, matchCore, hl1, hl2, hg1]
  rcases hg2 : env.cvtGray i2 with _ | g2
  · left; simp [matchFn, matchCore, hl1, hl2, hg1, hg2]
  rcases hr1 : env.resize g1 (300, 300) with _ | r1
  · left; simp [matchFn, matchCore, hl1, hl2, hg1, hg2, hr1]
  rcases hr2 : env.resize g2 (300, 300) with _ | r2
  · left; simp [matchFn, matchCore, hl1, hl2, hg1, hg2, hr1, hr2]
  rcases hpv : env.preview r1 r2 with _ | u
  · left; simp [matchFn, matchCore, hl1, hl2, hg1, hg2, hr1, hr2, hpv]
  rcases hsv : env.ssim r1 r2 with _ | s
  · left; simp [matchFn, matchCore, hl1, hl2, hg1, hg2, hr1, hr2, hpv, hsv]
  right
  refine ⟨i1, i2, g1, g2, r1, r2, s, rfl, rfl, hg1, hg2, hr1, hr2, ?_, hsv, ?_⟩
  · cases u; exact hpv
  · simp [matchFn, matchCore, hl1, hl2, hg1, hg2, hr1, hr2, hpv, hsv]

/-- Claim C2 (amended): match returns -1 whenever either operand fails to
load. -/
theorem match_neg_one_on_load_failure {α β γ : Type} (env : PyEnv α β γ)
    (p1 p2 : String)
    (h : load_image env p1 = none ∨ load_image env p2 = none) :
    matchFn env p1 p2 = -1 := by
  rcases h with h | h
  · simp [matchFn, h]
  · rcases hl1 : load_image env p1 with _ | i1 <;> simp [matchFn, h, hl1]

theorem match_neg_one_on_load_failure_witness :
    matchFn envNoRead "a.png" "b.png" = -1 :=
  match_neg_one_on_load_failure envNoRead "a.png" "b.png" (Or.inl (by decide))

/-- Claim C2 counterexample: two loadable sources whose comparison succeeds
at every stage, with a structural similarity index of -1/100 (inside the
documented range [-1, 1]), for which match nevertheless returns -1: the
sentinel is not distinguished from this valid successful score. -/
theorem sentinel_collision_cex :
    load_image envNegCent "a.png" = some 5 ∧
    load_image envNegCent "b.png" = some 5 ∧
    envNegCent.cvtGray 5 = some 5 ∧
    envNegCent.resize 5 (300, 300) = some 5 ∧
    envNegCent.preview 5 5 = some () ∧
    envNegCent.ssim 5 5 = some (-1 / 100) ∧
    (-1 : ℚ) ≤ -1 / 100 ∧ (-1 / 100 : ℚ) ≤ 1 ∧
    matchFn envNegCent "a.png" "b.png" = -1 := by
  have h9 : matchFn envNegCent "a.png" "b.png" = round2 (-1 / 100 * 100) := by
    have hl1 : load_image envNegCent "a.png" = some 5 := by decide
    have hl2 : load_image envNegCent "b.png" = some 5 := by decide
    simp only [matchFn, hl1, hl2]
    rfl
  have h10 : round2 (-1 / 100 * 100) = -1 := by
    have hx : (-1 / 100 : ℚ) * 100 * 100 = ((-100 : ℤ) : ℚ) := by norm_num
    unfold round2
    rw [hx, rhe_intCast]
    norm_num
  exact ⟨by decide, by decide, rfl, rfl, rfl, rfl, by norm_num, by norm_num,
    h9.trans h10⟩

/-- Claim C3: load_image dispatches in a fixed order: a source starting with
http is fetched over the network and decoded from the response bytes (none
on fetch failure); otherwise a source with a case-insensitive .pdf suffix is
rendered from its first page only, all other pages being discarded (none
when the document is unreadable or has no pages); otherwise the source is
decoded directly as a local file (none when missing or unreadable, via
imread). -/
theorem load_image_dispatch {α β γ : Type} (env : PyEnv α β γ) (path : String) :
    (pyStartsWith path "http" = true →
      load_image env path = (env.fetchBytes path).bind env.imdecodeColor ∧
      (env.fetchBytes path = none → load_image env path = none)) ∧
    (pyStartsWith path "http" = false →
      pyEndsWith (pyLower path) ".pdf" = true →
      (∀ p rest, env.pdfDoc path = some (p :: rest) →
        load_image env path = env.jpegSaveLoad p) ∧
      (env.pdfDoc path = none → load_image env path = none) ∧
      (env.pdfDoc path = some [] → load_image env path = none)) ∧
    (pyStartsWith path "http" = false →
      pyEndsWith (pyLower path) ".pdf" = false →
      load_image env path = env.imread path) := by
  refine ⟨fun hh => ⟨?_, fun hf => ?_⟩,
    fun hh hp => ⟨fun p rest hdoc => ?_, fun hdoc => ?_, fun hdoc => ?_⟩,
    fun hh hp => ?_⟩
  · simp [load_image, hh, download_image]
  · simp [load_image, hh, download_image, hf]
  · simp [load_image, hh, hp, extract_first_page_from_pdf, convert_from_path, hdoc]
  · simp [load_image, hh, hp, extract_first_page_from_pdf, convert_from_path, hdoc]
  · simp [load_image, hh, hp, extract_first_page_from_pdf, convert_from_path, hdoc]
  · simp [load_image, hh, hp]

theorem load_image_dispatch_witness :
    load_image envHalf "doc.PDF" = envHalf.jpegSaveLoad 2 :=
  ((load_image_dispatch envHalf "doc.PDF").2.1 (by decide) (by decide)).1 2 [3] rfl

/- Helper for claim C4: the post-load pipeline is symmetric whenever the
ssim library call is symmetric and the preview call does not depend on the
operand order. -/
theorem matchCore_symm {α β γ : Type} (env : PyEnv α β γ)
    (hs : ∀ x y, env.ssim x y = env.ssim y x)
    (hpv : ∀ x y, env.preview x y = env.preview y x)
    (i1 i2 : α) : matchCore env i1 i2 = matchCore env i2 i1 := by
  unfold matchCore
  rcases hg1 : env.cvtGray i1 with _ | g1
  · rcases hg2 : env.cvtGray i2 with _ | g2 <;> simp [hg1, hg2]
  · rcases hg2 : env.cvtGray i2 with _ | g2
    · simp [hg1, hg2]
    · simp only [hg1, hg2]
      rcases hr1 : env.resize g1 (300, 300) with _ | r1
      · rcases hr2 : env.resize g2 (300, 300) with _ | r2 <;> simp [hr1, hr2]
      · rcases hr2 : env.resize g2 (300, 300) with _ | r2
        · simp [hr1, hr2]
        · simp only [hr1, hr2]
          rw [hpv r1 r2]
          rcases hq : env.preview r2 r1 with _ | u
          · simp [hq]
          · simp only [hq]
            rw [hs r1 r2]

/-- Claim C4: match is symmetric in its two sources, covering both the
sentinel case and the successful-comparison case, given that the ssim
library call is symmetric (the structural similarity index is a symmetric
function of its operands) and that the preview display does not depend on
the operand order. -/
theorem match_symm {α β γ : Type} (env : PyEnv α β γ)
    (hs : ∀ x y, env.ssim x y = env.ssim y x)
    (hpv : ∀ x y, env.preview x y = env.preview y x)
    (a b : String) : matchFn env a b = matchFn env b a := by
  unfold matchFn
  rcases h1 : load_image env a with _ | i1
  · rcases h2 : load_image env b with _ | i2 <;> simp [h1, h2]
  · rcases h2 : load_image env b with _ | i2
    · simp [h1, h2]
    · simp only [h1, h2]
      exact matchCore_symm env hs hpv i1 i2

theorem match_symm_witness :
    matchFn envHalf "x.png" "y.png" = matchFn envHalf "y.png" "x.png" :=
  match_symm envHalf (fun _ _ => rfl) (fun _ _ => rfl) "x.png" "y.png"

/-- Claim C5: when both sources load to the same decoded image (as two
byte-identical files do) and the pipeline stages succeed, with the ssim
library call returning 1 on a pair of identical operands, match returns
exactly 100. -/
theorem match_self_100 {α β γ : Type} (env : PyEnv α β γ) (p1 p2 : String)
    (i g r : α)
    (hl1 : load_image env p1 = some i) (hl2 : load_image env p2 = some i)
    (hg : env.cvtGray i = some g) (hr : env.resize g (300, 300) = some r)
    (hpv : env.preview r r = some ()) (hs : env.ssim r r = some 1) :
    matchFn env p1 p2 = 100 := by
  have he : matchFn env p1 p2 = round2 (1 * 100) := by
    simp only [matchFn, matchCore, hl1, hl2, hg, hr, hpv, hs]
  rw [he]
  have hx : (1 : ℚ) * 100 * 100 = ((10000 : ℤ) : ℚ) := by norm_num
  unfold round2
  rw [hx, rhe_intCast]
  norm_num

theorem match_self_100_witness : matchFn envOne "a.png" "b.png" = 100 :=
  match_self_100 envOne "a.png" "b.png" 5 5 5 (by decide) (by decide)
    rfl rfl rfl rfl

/-
Interaction environment of capture_image_from_cam_into_temp,
src/signature.py lines 109-150.  φ is the type of camera frames.
  opened : cv2.VideoCapture(0).isOpened()
  read   : the result of cam.read() on the i-th loop iteration; none models
           ret being False.
  key    : the result of cv2.waitKey(1) on the i-th loop iteration.
-/
structure CamDev (φ : Type) where
  opened : Bool
  read : Nat → Option φ
  key : Nat → Int

/- Exit taken by the preview loop: the frame-grab exception, the ESC break,
or the SPACE capture holding the current frame. -/
inductive LoopExit (φ : Type)
  | grabError : LoopExit φ
  | escaped : LoopExit φ
  | captured : φ → LoopExit φ

/- The while True loop of src/signature.py lines 120-132, run for at most
fuel iterations starting at iteration i; none means the loop has taken no
exit within fuel iterations. -/
def camLoop {φ : Type} (cam : CamDev φ) : Nat → Nat → Option (LoopExit φ)
  | 0, _ => none
  | fuel + 1, i =>
    match cam.read i with
    | none => some LoopExit.grabError
    | some f =>
      if cam.key i % 256 == 27 then some LoopExit.escaped
      else if cam.key i % 256 == 32 then some (LoopExit.captured f)
      else camLoop cam fuel (i + 1)

/-
Observable outcome of capture_image_from_cam_into_temp: the returned value,
whether cam.release() was executed before returning, whether
os.makedirs("temp", exist_ok=True) was executed, and which file was written
with which frame (cv2.imwrite).
-/
structure CamResult (φ : Type) where
  ret : Option String
  released : Bool
  madeTempDir : Bool
  wrote : Option (String × φ)

/- src/signature.py lines 109-150.  The outer value none stands for an
execution whose loop has taken no exit within fuel iterations.  On the path
where the camera does not open, and on the path where a frame grab fails,
the raise transfers control to the except handler, which returns None
without executing the cam.release() of line 135: released is false there.
After an ESC or SPACE exit, lines 135-136 release the camera; on a SPACE
exit lines 138-144 then create the temp directory, write the frame to
os.path.join("temp", "test_img" + str(sign) + ".png") and return that
path. -/
def capture_image_from_cam_into_temp {φ : Type} (cam : CamDev φ)
    (fuel : Nat) (sign : Nat) : Option (CamResult φ) :=
  if !cam.opened then some ⟨none, false, false, none⟩
  else
    match camLoop cam fuel 0 with
    | none => none
    | some LoopExit.grabError => some ⟨none, false, false, none⟩
    | some LoopExit.escaped => some ⟨none, true, false, none⟩
    | some (LoopExit.captured f) =>
      some ⟨some ("temp/test_img" ++ toString sign ++ ".png"), true, true,
        some ("temp/test_img" ++ toString sign ++ ".png", f)⟩

/-
Environment of capture_image_from_clipboard, src/signature.py lines
152-168.
  grabclipboard : PIL.ImageGrab.grabclipboard(); none when the clipboard
                  holds no image.
  saveOk        : whether image.save(path) succeeds; false models a raise.
-/
structure ClipEnv (φ : Type) where
  grabclipboard : Option φ
  saveOk : φ → String → Bool

/- Observable outcome of capture_image_from_clipboard: the returned value
and which file was written with which image. -/
structure ClipResult (φ : Type) where
  ret : Option String
  wrote : Option (String × φ)

/- src/signature.py lines 152-168: an empty clipboard raises ValueError,
which the except handler catches, returning None; otherwise the image is
saved to the fixed path temp_clipboard_signature.png and that path is
returned (a failing save also lands in the except handler and yields
None). -/
def capture_image_from_clipboard {φ : Type} (env : ClipEnv φ) : ClipResult φ :=
  match env.grabclipboard with
  | none => ⟨none, none⟩
  | some image =>
    if env.saveOk image "temp_clipboard_signature.png" then
      ⟨some "temp_clipboard_signature.png",
        some ("temp_clipboard_signature.png", image)⟩
    else ⟨none, none⟩

/- A camera that opens but whose first frame grab fails. -/
def camBad : CamDev Nat := ⟨true, fun _ => none, fun _ => 0⟩

/- A camera that opens, always delivers a frame, and receives SPACE at
once. -/
def camGood : CamDev Nat := ⟨true, fun _ => some 7, fun _ => 32⟩

def clipEnvSome : ClipEnv Nat := ⟨some 9, fun _ _ => true⟩

def clipEnvNone : ClipEnv Nat := ⟨none, fun _ _ => true⟩

/-- Claim C6 (exhibit of the failing path): when the camera opens but the
first frame grab fails, the function exits through the except handler and
returns None without the device having been released, contradicting the
requirement that the handle is released on every exit path. -/
theorem cam_grab_failure_leaks_device :
    ∃ r : CamResult Nat,
      capture_image_from_cam_into_temp camBad 1 1 = some r ∧
      r.released = false ∧ r.ret = none :=
  ⟨⟨none, false, false, none⟩, rfl, rfl, rfl⟩

/-- Claim C9 (amended): on a capture trigger the camera helper creates the
temp directory on demand and writes the frame to the deterministic path
temp/test_img<N>.png, returning that path (N is the sign argument, 1 at the
call site in src/main.py); the clipboard helper, however, returns either no
path or the fixed path temp_clipboard_signature.png, which lies in the
working directory and not under temp/. -/
theorem temp_paths_amended :
    (∀ (φ : Type) (cam : CamDev φ) (fuel sign : Nat) (r : CamResult φ)
      (p : String),
      capture_image_from_cam_into_temp cam fuel sign = some r →
      r.ret = some p →
      p = "temp/test_img" ++ toString sign ++ ".png" ∧
      r.madeTempDir = true ∧ ∃ f, r.wrote = some (p, f)) ∧
    (∀ (φ : Type) (env : ClipEnv φ),
      (capture_image_from_clipboard env).ret = none ∨
      (capture_image_from_clipboard env).ret =
        some "temp_clipboard_signature.png") := by
  constructor
  · intro φ cam fuel sign r p hcap hret
    cases ho : cam.opened with
    | false =>
      simp only [capture_image_from_cam_into_temp, ho, Bool.not_false,
        if_true, Option.some.injEq] at hcap
      subst hcap
      simp at hret
    | true =>
      rcases hl : camLoop cam fuel 0 with _ | ex
      · simp [capture_image_from_cam_into_temp, ho, hl] at hcap
      · cases ex with
        | grabError =>
          simp only [capture_image_from_cam_into_temp, ho, hl, Bool.not_true,
            Bool.false_eq_true, if_false, Option.some.injEq] at hcap
          subst hcap
          simp at hret
        | escaped =>
          simp only [capture_image_from_cam_into_temp, ho, hl, Bool.not_true,
            Bool.false_eq_true, if_false, Option.some.injEq] at hcap
          subst hcap
          simp at hret
        | captured f =>
          simp only [capture_image_from_cam_into_temp, ho, hl, Bool.not_true,
            Bool.false_eq_true, if_false, Option.some.injEq] at hcap
          subst hcap
          simp only [Option.some.injEq] at hret
          subst hret
          exact ⟨rfl, rfl, f, rfl⟩
  · intro φ env
    cases hg : env.grabclipboard with
    | none => left; simp [capture_image_from_clipboard, hg]
    | some img =>
      cases hs : env.saveOk img "temp_clipboard_signature.png" with
      | false => left; simp [capture_image_from_clipboard, hg, hs]
      | true => right; simp [capture_image_from_clipboard, hg, hs]

theorem temp_paths_amended_witness :
    "temp/test_img1.png" = "temp/test_img" ++ toString 1 ++ ".png" ∧
    (⟨some "temp/test_img1.png", true, true,
      some ("temp/test_img1.png", 7)⟩ : CamResult Nat).madeTempDir = true ∧
    ∃ f, (⟨some "temp/test_img1.png", true, true,
      some ("temp/test_img1.png", 7)⟩ : CamResult Nat).wrote =
        some ("temp/test_img1.png", f) :=
  temp_paths_amended.1 Nat camGood 2 1
    ⟨some "temp/test_img1.png", true, true, some ("temp/test_img1.png", 7)⟩
    "temp/test_img1.png" rfl rfl

/-- Claim C9 counterexample: with an image on the clipboard the clipboard
helper writes to and returns the fixed path temp_clipboard_signature.png,
and that path does not lie under the temp/ directory. -/
theorem clipboard_path_not_under_temp_cex :
    (capture_image_from_clipboard clipEnvSome).ret =
      some "temp_clipboard_signature.png" ∧
    (capture_image_from_clipboard clipEnvSome).wrote =
      some ("temp_clipboard_signature.png", 9) ∧
    pyStartsWith "temp_clipboard_signature.png" "temp/" = false :=
  ⟨rfl, rfl, by decide⟩

/-- Claim C8: with no image on the clipboard the capture returns no path
and writes nothing (the raised ValueError is caught by the except handler,
not propagated); with an image on the clipboard whose save succeeds, the
capture writes the image to the fixed temporary path
temp_clipboard_signature.png and returns that path. -/
theorem clipboard_capture_spec {φ : Type} (env : ClipEnv φ) :
    (env.grabclipboard = none →
      capture_image_from_clipboard env = ⟨none, none⟩) ∧
    (∀ img, env.grabclipboard = some img →
      env.saveOk img "temp_clipboard_signature.png" = true →
      capture_image_from_clipboard env =
        ⟨some "temp_clipboard_signature.png",
          some ("temp_clipboard_signature.png", img)⟩) := by
  constructor
  · intro hg
    simp [capture_image_from_clipboard, hg]
  · intro img hg hs
    simp [capture_image_from_clipboard, hg, hs]

theorem clipboard_capture_spec_witness :
    capture_image_from_clipboard clipEnvSome =
      ⟨some "temp_clipboard_signature.png",
        some ("temp_clipboard_signature.png", 9)⟩ :=
  (clipboard_capture_spec clipEnvSome).2 9 rfl rfl

/- A stored signature record, as read back by find_one in src/main.py: the
signature_url field may be absent (user_record.get returning None). -/
structure SigRecord where
  signature_url : Option String
deriving DecidableEq

/- Outcome of on_verify_signature as observed at the GUI boundary: a match
decision with its score (success status plus info box), a non-match
decision with its score (error status plus error box), or a caught
exception surfaced as an error status message; in every case the handler
returns normally. -/
inductive VerifyOutcome
  | matched : ℚ → VerifyOutcome
  | notMatched : ℚ → VerifyOutcome
  | errMsg : String → VerifyOutcome

/- src/main.py lines 154-195, on_verify_signature.  db models
self.db.signatures.find_one keyed by user_id; matchScore models the match
function of src/signature.py applied to the stored URL and the entered
path.  Both entry fields are stripped; empty fields, a missing record, a
missing or empty stored URL, and a sentinel comparison result each raise a
ValueError whose message the except handler surfaces as a status message.
The cosmetic display_image_from_cloudinary call catches its own exceptions
and cannot change the outcome, so it is not modelled. -/
def on_verify_signature (db : String → Option SigRecord)
    (matchScore : String → String → ℚ)
    (user_id_raw new_signature_path_raw : String) : VerifyOutcome :=
  let user_id := pyStrip user_id_raw
  let new_signature_path := pyStrip new_signature_path_raw
  if user_id = "" ∨ new_signature_path = "" then
    VerifyOutcome.errMsg "User ID and signature file are required"
  else
    match db user_id with
    | none =>
      VerifyOutcome.errMsg ("No signature found for User ID: " ++ user_id)
    | some user_record =>
      match user_record.signature_url with
      | none =>
        VerifyOutcome.errMsg "No existing signature URL found in the database"
      | some url =>
        if url = "" then
          VerifyOutcome.errMsg "No existing signature URL found in the database"
        else
          let similarity := matchScore url new_signature_path
          if similarity = -1 then
            VerifyOutcome.errMsg "Failed to process images for comparison"
          else if 75 ≤ similarity then VerifyOutcome.matched similarity
          else VerifyOutcome.notMatched similarity

/-- Claim C7: with both stripped entry fields nonempty, if a record with a
nonempty stored URL exists for the user identifier and the comparison does
not return the sentinel -1, the verification declares a match exactly when
the similarity score is at least the threshold 75, and declares a non-match
with the same score otherwise; if no record exists for the identifier the
outcome is the surfaced no-record error message, the handler returns
normally, and the outcome does not depend on the comparison function at
all (no comparison is performed). -/
theorem verify_threshold_and_no_record (db : String → Option SigRecord)
    (matchScore : String → String → ℚ) (uid p : String)
    (hu : pyStrip uid ≠ "") (hp : pyStrip p ≠ "") :
    (∀ r url, db (pyStrip uid) = some r → r.signature_url = some url →
      url ≠ "" → matchScore url (pyStrip p) ≠ -1 →
      (on_verify_signature db matchScore uid p =
          VerifyOutcome.matched (matchScore url (pyStrip p)) ↔
        75 ≤ matchScore url (pyStrip p)) ∧
      (¬ 75 ≤ matchScore url (pyStrip p) →
        on_verify_signature db matchScore uid p =
          VerifyOutcome.notMatched (matchScore url (pyStrip p)))) ∧
    (db (pyStrip uid) = none →
      on_verify_signature db matchScore uid p =
        VerifyOutcome.errMsg ("No signature found for User ID: " ++ pyStrip uid) ∧
      ∀ m2 : String → String → ℚ,
        on_verify_signature db m2 uid p = on_verify_signature db matchScore uid p) := by
  have hguard : ¬(pyStrip uid = "" ∨ pyStrip p = "") := fun h => h.elim hu hp
  constructor
  · intro r url hdb hurl hne hsent
    have hE : on_verify_signature db matchScore uid p =
        (if 75 ≤ matchScore url (pyStrip p) then
          VerifyOutcome.matched (matchScore url (pyStrip p))
        else VerifyOutcome.notMatched (matchScore url (pyStrip p))) := by
      simp only [on_verify_signature]
      rw [if_neg hguard, hdb]
      simp only [hurl]
      rw [if_neg hne, if_neg hsent]
    constructor
    · rw [hE]
      constructor
      · intro heq
        by_contra h75
        rw [if_neg h75] at heq
        exact VerifyOutcome.noConfusion heq
      · intro h75
        rw [if_pos h75]
    · intro h75
      rw [hE, if_neg h75]
  · intro hdb
    have hE : ∀ m : String → String → ℚ,
        on_verify_signature db m uid p =
          VerifyOutcome.errMsg ("No signature found for User ID: " ++ pyStrip uid) := by
      intro m
      simp only [on_verify_signature]
      rw [if_neg hguard, hdb]
    exact ⟨hE matchScore, fun m2 => (hE m2).trans (hE matchScore).symm⟩

def db0 : String → Option SigRecord :=
  fun u => if u = "alice" then some ⟨some "http://sig.png"⟩ else none

def mf0 : String → String → ℚ := fun _ _ => 100

theorem verify_threshold_and_no_record_witness :
    on_verify_signature db0 mf0 "alice" "q.png" = VerifyOutcome.matched 100 :=
  ((verify_threshold_and_no_record db0 mf0 "alice" "q.png" (by decide) (by decide)).1
    ⟨some "http://sig.png"⟩ "http://sig.png" (by decide) rfl (by decide)
    (by norm_num [mf0])).1.mpr (by norm_num [mf0])
